import Mathlib

/-
Verification of the notifier-zone-filter plugin (src/main.py) against its
natural-language specification.

The decision core lives in NotificationFilterMixin.sendNotification
(src/main.py lines 363-452).  Python dictionaries, storage reads and the
shapely geometry calls are shallowly embedded below:

* coordinates are rational numbers (Python floats carry exact decimal
  fractions in every configuration of interest);
* a storage read that may be absent is an Option, with Python truthiness
  (None and the empty string are falsy) modelled explicitly;
* raising ShouldSendNotification, or any other Python exception, is
  modelled with Except: the try body returns an error value which the two
  except handlers of sendNotification turn into a Decision.
-/

namespace ZoneFilter

/-- An exact rational coordinate: an integer numerator over a positive
natural denominator, kept unnormalised so that every arithmetic operation
is a plain integer computation the kernel can evaluate.  Every coordinate
in a configuration or event has a positive denominator, and all
operations below preserve that, so the comparison predicates (defined by
cross-multiplication) agree with the real-number comparisons shapely
performs. -/
structure Frac where
  num : Int
  den : Nat
deriving DecidableEq

instance (n : Nat) : OfNat Frac n := ⟨⟨n, 1⟩⟩

instance : Neg Frac := ⟨fun a => ⟨-a.num, a.den⟩⟩

/-- Value multiplication. -/
def Frac.mul (a b : Frac) : Frac := ⟨a.num * b.num, a.den * b.den⟩

/-- Value addition. -/
def Frac.add (a b : Frac) : Frac := ⟨a.num * b.den + b.num * a.den, a.den * b.den⟩

/-- Value subtraction. -/
def Frac.sub (a b : Frac) : Frac := ⟨a.num * b.den - b.num * a.den, a.den * b.den⟩

/-- Value comparison a <= b by cross-multiplication. -/
def Frac.le (a b : Frac) : Bool := decide (a.num * b.den ≤ b.num * a.den)

/-- Value comparison a < b by cross-multiplication. -/
def Frac.lt (a b : Frac) : Bool := decide (a.num * b.den < b.num * a.den)

/-- Value equality by cross-multiplication. -/
def Frac.veq (a b : Frac) : Bool := decide (a.num * b.den = b.num * a.den)

/-- Value minimum. -/
def Frac.fmin (a b : Frac) : Frac := if a.le b then a else b

/-- Value maximum. -/
def Frac.fmax (a b : Frac) : Frac := if a.le b then b else a

/-- The rational value a Frac denotes, used to state properties about the
numbers themselves. -/
def Frac.toRat (a : Frac) : ℚ := (a.num : ℚ) / (a.den : ℚ)

/-- A 2-D point. -/
abbrev Pt := Frac × Frac

/-- Python truthiness of an optional string: None and the empty string are
falsy.  Used for storage reads such as selected_preset. -/
def truthyS : Option String → Bool
  | none => false
  | some s => !(s == "")

/-- Python expression a or b for an optional string a with a string
default b: None and the empty string fall back to the default. -/
def pyOrStr (o : Option String) (d : String) : String :=
  match o with
  | none => d
  | some s => if s = "" then d else s

/-! ## Geometry: shallow embedding of the shapely calls

The evaluation loop builds the detection rectangle with
shapely.geometry.box (line 410) and the zone polygon with
shapely.geometry.Polygon (line 418), then calls the predicates
detection_box.intersects(zone_box) (line 422) and
detection_box.contains(zone_box) (line 425).  The detection geometry is
always an axis-aligned rectangle, so the two predicates are embedded as
exact rational-arithmetic tests of a closed axis-aligned box against a
polygon given by its ring vertices. -/

/-- Axis-aligned rectangle, stored in normalised min/max form: its region
is the closed set [minx, maxx] x [miny, maxy]. -/
structure BoxG where
  minx : Frac
  miny : Frac
  maxx : Frac
  maxy : Frac
deriving DecidableEq

/-- shapely.geometry.box(x1, y1, x2, y2): the rectangular region spanned
by the two corner points (the region does not depend on corner order). -/
def shapelyBox (x1 y1 x2 y2 : Frac) : BoxG :=
  ⟨x1.fmin x2, y1.fmin y2, x1.fmax x2, y1.fmax y2⟩

/-- Membership of a point in the closed box region. -/
def pointInBox (b : BoxG) (p : Pt) : Bool :=
  b.minx.le p.1 && p.1.le b.maxx && b.miny.le p.2 && p.2.le b.maxy

/-- The four corners of a box, in counter-clockwise ring order. -/
def boxCorners (b : BoxG) : List Pt :=
  [(b.minx, b.miny), (b.maxx, b.miny), (b.maxx, b.maxy), (b.minx, b.maxy)]

/-- Twice the signed area of the triangle a b c; the standard orientation
test. -/
def orient (a b c : Pt) : Frac :=
  ((b.1.sub a.1).mul (c.2.sub a.2)).sub ((b.2.sub a.2).mul (c.1.sub a.1))

/-- p lies on the closed segment from a to b. -/
def onSeg (a b p : Pt) : Bool :=
  (orient a b p).veq 0 &&
  (a.1.fmin b.1).le p.1 && p.1.le (a.1.fmax b.1) &&
  (a.2.fmin b.2).le p.2 && p.2.le (a.2.fmax b.2)

/-- Closed segments p1-p2 and q1-q2 share at least one point: either a
proper crossing, or an endpoint of one segment lies on the other (which
also covers collinear overlap). -/
def segIntersect (p1 p2 q1 q2 : Pt) : Bool :=
  let d1 := orient q1 q2 p1
  let d2 := orient q1 q2 p2
  let d3 := orient p1 p2 q1
  let d4 := orient p1 p2 q2
  ((Frac.lt 0 d1 && d2.lt 0 || d1.lt 0 && Frac.lt 0 d2) &&
    (Frac.lt 0 d3 && d4.lt 0 || d3.lt 0 && Frac.lt 0 d4)) ||
  onSeg q1 q2 p1 || onSeg q1 q2 p2 || onSeg p1 p2 q1 || onSeg p1 p2 q2

/-- Edges of the closed ring through the given vertices (shapely closes
the ring from the last vertex back to the first). -/
def polyEdges : List Pt → List (Pt × Pt)
  | [] => []
  | p :: ps => List.zip (p :: ps) (ps ++ [p])

/-- An edge of the polygon crosses the horizontal ray from p towards
positive x; the half-open vertical span makes rays through vertices count
exactly once.  The x-coordinate comparison with the edge at height p.y is
stated multiplied through by the edge's y-extent, whose sign each
disjunct fixes, so no division is needed. -/
def rayCrosses (p : Pt) (e : Pt × Pt) : Bool :=
  ((e.1).2.le p.2 && p.2.lt (e.2).2 &&
    ((p.1.sub (e.1).1).mul ((e.2).2.sub (e.1).2)).lt
      ((p.2.sub (e.1).2).mul ((e.2).1.sub (e.1).1))) ||
  ((e.2).2.le p.2 && p.2.lt (e.1).2 &&
    ((p.2.sub (e.1).2).mul ((e.2).1.sub (e.1).1)).lt
      ((p.1.sub (e.1).1).mul ((e.2).2.sub (e.1).2)))

/-- Point-in-polygon for the closed region bounded by the ring: on the
boundary, or an odd number of ray crossings (even-odd rule). -/
def pointInPoly (p : Pt) (pts : List Pt) : Bool :=
  (polyEdges pts).any (fun e => onSeg e.1 e.2 p) ||
  (((polyEdges pts).filter (rayCrosses p)).length % 2 == 1)

/-- shapely detection_box.intersects(zone_box): the closed box region and
the closed polygon region share at least one point.  For a simple ring
this holds exactly when a polygon vertex lies in the box, a box corner
lies in the polygon, or some polygon edge meets some box edge. -/
def boxIntersectsPoly (b : BoxG) (pts : List Pt) : Bool :=
  pts.any (pointInBox b) ||
  (boxCorners b).any (fun c => pointInPoly c pts) ||
  (polyEdges pts).any (fun e =>
    (polyEdges (boxCorners b)).any (fun f => segIntersect e.1 e.2 f.1 f.2))

/-- Twice the signed (shoelace) area of the ring. -/
def polyArea2 (pts : List Pt) : Frac :=
  (polyEdges pts).foldl
    (fun acc e => acc.add (((e.1).1.mul (e.2).2).sub ((e.2).1.mul (e.1).2))) 0

/-- shapely detection_box.contains(zone_box): every point of the polygon
region lies in the closed box and the interiors meet.  The box is convex
and closed, so region containment is exactly all vertices in the box; a
positive-area polygon inside a closed convex set automatically meets its
interior, while a zero-area ring has no interior and is never contained in
the DE-9IM sense. -/
def boxContainsPoly (b : BoxG) (pts : List Pt) : Bool :=
  pts.all (pointInBox b) && !((polyArea2 pts).veq 0)

/-- Modelled from the spec: the section 4.1 containment direction
(zone-contains-object) that the Contain mode is documented to test: every
point of the detection box lies within or on the boundary of the zone
polygon.  All four box corners lying in the polygon region is a necessary
condition, so falsity of this test refutes that containment direction.
Declared only to be compared with the source direction boxContainsPoly. -/
def zoneContainsObject (zonePts : List Pt) (b : BoxG) : Bool :=
  (boxCorners b).all (fun c => pointInPoly c zonePts)

/-! ## Configuration data model

NotificationFilterEditor reads zones from prefixed storage:
zones_of (line 212), zone_details_of (line 215), zone_type_of (line 218).
A storage item that may be missing is an Option; the Python fallbacks
(or [] and or "Intersect") are applied in the accessors exactly as in the
source. -/

/-- The parsed zone storage of one editor (a preset device or the mixin's
own custom storage): the raw items behind the three accessors. -/
structure ZoneStore where
  zonesItem : String → Option (List String)
  zoneDetailsItem : String → String → Option (List Pt)
  zoneTypeItem : String → String → Option String

/-- Line 212: storage.getItem(camera:zones) or []. -/
def zones_of (st : ZoneStore) (camera_id : String) : List String :=
  (st.zonesItem camera_id).getD []

/-- Line 215: storage.getItem(camera:zone:name) or []. -/
def zone_details_of (st : ZoneStore) (camera_id zone : String) : List Pt :=
  (st.zoneDetailsItem camera_id zone).getD []

/-- Line 218: storage.getItem(camera:zone:name:type) or "Intersect". -/
def zone_type_of (st : ZoneStore) (camera_id zone : String) : String :=
  pyOrStr (st.zoneTypeItem camera_id zone) "Intersect"

/-- The surrounding NotificationFilter plugin: the scrypted device
registry (get_device_from_scrypted, truthiness of the looked-up device)
and the preset table consulted by get_preset_by_scrypted_id. -/
structure Plugin where
  registry : String → Bool
  preset_devices : String → Option ZoneStore

/-- Lines 240-243: getDeviceById, returning nothing for a falsy id; only
the truthiness of the result is consumed by sendNotification. -/
def get_device_from_scrypted (pl : Plugin) (device_id : Option String) : Bool :=
  match device_id with
  | none => false
  | some s => if s = "" then false else pl.registry s

/-- Lines 533-537: linear scan of the preset devices by scrypted id; a
missing or falsy id finds nothing. -/
def get_preset_by_scrypted_id (pl : Plugin) (device_id : Option String) : Option ZoneStore :=
  match device_id with
  | none => none
  | some s => pl.preset_devices s

/-- Per-mixin notifier configuration: use_custom (line 356, or False),
selected_preset (line 359) and the mixin's own editor storage, which is
the profile used when use_custom is set (preset = self, line 372). -/
structure MixinConfig where
  use_custom : Bool
  selected_preset : Option String
  customStore : ZoneStore

/-! ## Event payload -/

/-- One entry of recordedEvent.data.detections; only the presence and
value of boundingBox = (x, y, w, h) matter to the filter. -/
structure Detection where
  boundingBox : Option (Frac × Frac × Frac × Frac)

/-- recordedEvent.data: the detections list and inputDimensions keys may
each be absent. -/
structure EventData where
  detections : Option (List Detection)
  inputDimensions : Option (Frac × Frac)

/-- options.recordedEvent: the id key (read with .get, empty string falsy)
and the data dictionary. -/
structure RecordedEvent where
  id : Option String
  data : Option EventData

/-- NotifierOptions as consumed by sendNotification: the recordedEvent
key, and options.data.snoozeId when both of those keys are present. -/
structure NotifierOptions where
  recordedEvent : Option RecordedEvent
  dataSnoozeId : Option String

/-! ## Outcomes -/

/-- The reasons carried by ShouldSendNotification, one constructor per
raise site; the two geometric reasons carry the evidence polygons stored
in zone_bbox and obj_bbox (line 198). -/
inductive SendReason where
  | noPresetSelected
  | presetNotFound
  | noOptions
  | noRecordedEvent
  | noDeviceId
  | noZones
  | noDetections
  | noInputDimensions
  | zoneIntersect (zone_bbox : List Pt) (obj_bbox : BoxG)
  | zoneContain (zone_bbox : List Pt) (obj_bbox : BoxG)
  | nothingToEvaluate
deriving DecidableEq

/-- Python exceptions other than ShouldSendNotification that the try body
can raise: the IndexError of snoozeId.split("-")[1] (line 387), the
ValueError of shapely.geometry.Polygon on a ring that closes to fewer
than 4 coordinates (line 418), and the AttributeError of calling
zones_of on a None preset (lines 374/391). -/
inductive PyErr where
  | indexError
  | valueError
  | attributeError
deriving DecidableEq

/-- Outcome of the try body of sendNotification before the handlers run. -/
inductive BodyErr where
  | shouldSend (r : SendReason)
  | py (e : PyErr)
deriving DecidableEq

/-- What sendNotification does with the notification: send r forwards it
from the ShouldSendNotification handler (line 446), sendError e forwards
it from the generic exception handler (line 449), and skip suppresses it
in the else branch (lines 450-452, the wrapped notifier is not called). -/
inductive Decision where
  | send (r : SendReason)
  | sendError (e : PyErr)
  | skip
deriving DecidableEq

/-- The notification is delivered to the wrapped notifier. -/
def Decision.forwards : Decision → Bool
  | .skip => false
  | _ => true

/-! ## The evaluation pipeline (lines 363-452) -/

/-- Lines 365-369: the two guard raises of preset resolution, in source
order: no preset selected first, preset not found second; both are
skipped entirely when use_custom is set. -/
def presetChecks (pl : Plugin) (m : MixinConfig) : Except BodyErr Unit :=
  if !m.use_custom && !(truthyS m.selected_preset) then
    Except.error (BodyErr.shouldSend SendReason.noPresetSelected)
  else if !m.use_custom && !(get_device_from_scrypted pl m.selected_preset) then
    Except.error (BodyErr.shouldSend SendReason.presetNotFound)
  else Except.ok ()

/-- Lines 371-374: the effective profile; self's own storage when
use_custom, otherwise the plugin's preset table entry.  The lookup can
yield nothing even after the registry check passed; that surfaces later as
an AttributeError at the zones_of call site. -/
def resolvedPreset (pl : Plugin) (m : MixinConfig) : Option ZoneStore :=
  if m.use_custom then some m.customStore
  else get_preset_by_scrypted_id pl m.selected_preset

/-- Lines 385-389: the snoozeId fallback for the device id; a snoozeId
without a second dash-separated field raises IndexError. -/
def snoozeDeviceId (opts : NotifierOptions) : Except BodyErr String :=
  match opts.dataSnoozeId with
  | some sz =>
    match (sz.splitOn "-").get? 1 with
    | some d => Except.ok d
    | none => Except.error (BodyErr.py PyErr.indexError)
  | none => Except.error (BodyErr.shouldSend SendReason.noDeviceId)

/-- Lines 383-389: recordedEvent.get("id") if truthy, else the snoozeId
fallback. -/
def deviceIdOf (opts : NotifierOptions) (re : RecordedEvent) : Except BodyErr String :=
  match re.id with
  | some s => if s = "" then snoozeDeviceId opts else Except.ok s
  | none => snoozeDeviceId opts

/-- Lines 395-398: recordedEvent data and detections keys. -/
def eventDetections (re : RecordedEvent) : Option (List Detection) :=
  match re.data with
  | none => none
  | some d => d.detections

/-- Lines 400-402: recordedEvent data inputDimensions key. -/
def eventDims (re : RecordedEvent) : Option (Frac × Frac) :=
  match re.data with
  | none => none
  | some d => d.inputDimensions

/-- Line 417: scale the normalised zone vertices to pixel space by
componentwise multiplication with inputDimensions. -/
def scaleZone (dims : Frac × Frac) (pts : List Pt) : List Pt :=
  pts.map (fun q => (q.1.mul dims.1, q.2.mul dims.2))

/-- Value equality of two points: Python float equality of both
coordinates. -/
def ptVeq (a b : Pt) : Bool := a.1.veq b.1 && a.2.veq b.2

/-- The coordinate count of the closed ring shapely builds from a vertex
list: the first point is appended at the end unless the last point
already equals it by value.  shapely.geometry.Polygon (line 418) raises
ValueError exactly when this closed ring has fewer than 4 coordinates —
so for fewer than 3 vertices, and also for exactly 3 vertices whose
first and last points coincide.  (The empty list never reaches the
constructor: line 414 skips it first.) -/
def ringLength (pts : List Pt) : Nat :=
  match pts with
  | [] => 0
  | p :: ps => if ptVeq p (ps.getLastD p) then (p :: ps).length else (p :: ps).length + 1

/-- Line 410: the detection rectangle from boundingBox = (x, y, w, h). -/
def detBox (bb : Frac × Frac × Frac × Frac) : BoxG :=
  shapelyBox bb.1 bb.2.1 (bb.1.add bb.2.2.1) (bb.2.1.add bb.2.2.2)

/-- Lines 412-426, the inner zone loop for one detection box.  The Bool
argument and result thread the no_zones_at_all flag.  A zone with empty
stored details is skipped (line 414); a nonempty vertex list whose
closed ring has fewer than 4 coordinates makes shapely.geometry.Polygon
raise ValueError (line 418); otherwise the flag drops to false
(line 419) and the predicate of the zone's type fires
ShouldSendNotification with the evidence pair on a match. -/
def evalZones (p : ZoneStore) (device_id : String) (dims : Frac × Frac) (detection_box : BoxG) :
    List String → Bool → Except BodyErr Bool
  | [], acc => Except.ok acc
  | z :: rest, acc =>
    if zone_details_of p device_id z = [] then
      evalZones p device_id dims detection_box rest acc
    else
      let scaled := scaleZone dims (zone_details_of p device_id z)
      if ringLength scaled < 4 then Except.error (BodyErr.py PyErr.valueError)
      else if zone_type_of p device_id z = "Intersect" then
        if boxIntersectsPoly detection_box scaled then
          Except.error (BodyErr.shouldSend (SendReason.zoneIntersect scaled detection_box))
        else evalZones p device_id dims detection_box rest false
      else
        if boxContainsPoly detection_box scaled then
          Except.error (BodyErr.shouldSend (SendReason.zoneContain scaled detection_box))
        else evalZones p device_id dims detection_box rest false

/-- Lines 404-426, the outer detection loop: detections without a
boundingBox are skipped (lines 406-407), the rest run the zone loop with
the threaded no_zones_at_all flag. -/
def evalDetections (p : ZoneStore) (device_id : String) (dims : Frac × Frac) (zones : List String) :
    List Detection → Bool → Except BodyErr Bool
  | [], acc => Except.ok acc
  | det :: rest, acc =>
    match det.boundingBox with
    | none => evalDetections p device_id dims zones rest acc
    | some bb =>
      match evalZones p device_id dims (detBox bb) zones acc with
      | Except.error e => Except.error e
      | Except.ok acc2 => evalDetections p device_id dims zones rest acc2

/-- Lines 391-429 once the profile and device id are known: the zones
guard, the detections and inputDimensions guards, the two nested loops,
and the final no_zones_at_all raise. -/
def zonesPhase (p : ZoneStore) (device_id : String) (re : RecordedEvent) :
    Except BodyErr Unit :=
  if zones_of p device_id = [] then
    Except.error (BodyErr.shouldSend SendReason.noZones)
  else
    match eventDetections re with
    | none => Except.error (BodyErr.shouldSend SendReason.noDetections)
    | some dets =>
      match eventDims re with
      | none => Except.error (BodyErr.shouldSend SendReason.noInputDimensions)
      | some dims =>
        match evalDetections p device_id dims (zones_of p device_id) dets true with
        | Except.error e => Except.error e
        | Except.ok nza =>
          if nza then Except.error (BodyErr.shouldSend SendReason.nothingToEvaluate)
          else Except.ok ()

/-- The whole try body of sendNotification (lines 364-429).  The preset
variable is assigned at lines 371-374 before the options guards, but the
assignment itself cannot fail; its only failure mode (a None preset)
surfaces at the zones_of call of line 391, after the options,
recordedEvent and device id steps, which is where the match on
resolvedPreset sits here. -/
def sendNotificationTry (pl : Plugin) (m : MixinConfig) (options : Option NotifierOptions) :
    Except BodyErr Unit :=
  match presetChecks pl m with
  | Except.error e => Except.error e
  | Except.ok () =>
    match options with
    | none => Except.error (BodyErr.shouldSend SendReason.noOptions)
    | some opts =>
      match opts.recordedEvent with
      | none => Except.error (BodyErr.shouldSend SendReason.noRecordedEvent)
      | some re =>
        match deviceIdOf opts re with
        | Except.error e => Except.error e
        | Except.ok device_id =>
          match resolvedPreset pl m with
          | none => Except.error (BodyErr.py PyErr.attributeError)
          | some p => zonesPhase p device_id re

/-- Lines 363-452: the try body resolved by the two handlers.  The
ShouldSendNotification handler (430-446) and the generic handler (447-449)
both forward to the wrapped notifier; normal completion reaches the else
branch (450-452) which suppresses. -/
def sendNotification (pl : Plugin) (m : MixinConfig) (options : Option NotifierOptions) :
    Decision :=
  match sendNotificationTry pl m options with
  | Except.error (BodyErr.shouldSend r) => Decision.send r
  | Except.error (BodyErr.py e) => Decision.sendError e
  | Except.ok () => Decision.skip

/-! ## Derived predicates used to state the loop properties -/

/-- Every zone in the list has empty stored details, so the whole pass
leaves no_zones_at_all untouched. -/
def zonesInactive (p : ZoneStore) (device_id : String) (zs : List String) : Bool :=
  zs.all (fun z => decide (zone_details_of p device_id z = []))

/-- The zone neither fires nor raises for the given detection box: its
details are empty (skipped), or its scaled ring closes to at least 4
coordinates (so the Polygon constructor succeeds) and the predicate of
its type is false. -/
def zoneNoFireB (p : ZoneStore) (device_id : String) (dims : Frac × Frac) (box : BoxG)
    (z : String) : Bool :=
  decide (zone_details_of p device_id z = []) ||
  (decide (4 ≤ ringLength (scaleZone dims (zone_details_of p device_id z))) &&
    (if zone_type_of p device_id z = "Intersect" then
      !(boxIntersectsPoly box (scaleZone dims (zone_details_of p device_id z)))
    else
      !(boxContainsPoly box (scaleZone dims (zone_details_of p device_id z)))))

/-- The detection neither fires nor raises: it has no bounding box, or no
zone fires or raises against its box. -/
def detectionNoFireB (p : ZoneStore) (device_id : String) (dims : Frac × Frac)
    (zones : List String) (d : Detection) : Bool :=
  match d.boundingBox with
  | none => true
  | some bb => zones.all (zoneNoFireB p device_id dims (detBox bb))

/-! ## Concrete fixtures shared by witnesses and counterexamples -/

/-- A store holding the given zone list for camera id cam, with the given
per-zone details and stored type. -/
def mkStore (zs : List String) (dt : String → List Pt) (ty : String → Option String) :
    ZoneStore :=
  { zonesItem := fun c => if c = "cam" then some zs else none
  , zoneDetailsItem := fun c z => if c = "cam" then some (dt z) else none
  , zoneTypeItem := fun c z => if c = "cam" then ty z else none }

/-- The normalised unit square, the zone of the spec scenarios. -/
def unitSquare : List Pt := [(0, 0), (1, 0), (1, 1), (0, 1)]

/-- A mixin configured with use_custom so that its own store is the
profile. -/
def mkMixin (st : ZoneStore) : MixinConfig := ⟨true, none, st⟩

/-- A plugin with an empty registry and no presets. -/
def noPlugin : Plugin := ⟨fun _ => false, fun _ => none⟩

/-- A recorded event from camera cam with the given detections and frame
dimensions 100 x 100. -/
def mkRe (dets : List Detection) : RecordedEvent :=
  ⟨some "cam", some ⟨some dets, some (100, 100)⟩⟩

/-- Options wrapping mkRe. -/
def mkOpts (dets : List Detection) : NotifierOptions := ⟨some (mkRe dets), none⟩

/-- The full options argument wrapping mkOpts. -/
def mkEvent (dets : List Detection) : Option NotifierOptions := some (mkOpts dets)

/-- Fixture for C1: a Contain-mode zone covering the frame, strictly
inside the oversized detection box used against it. -/
def c1Store : ZoneStore :=
  mkStore ["z1"] (fun _ => unitSquare) (fun _ => some "Contain")

/-- Fixture for C2: a single zone whose stored ring has only two
vertices, so the Polygon constructor raises. -/
def c2Store : ZoneStore := mkStore ["z1"] (fun _ => [(0, 0), (1, 1)]) (fun _ => none)

/-- Fixture for C3: a camera with an empty zone list. -/
def c3Store : ZoneStore := mkStore [] (fun _ => []) (fun _ => none)

/-- Fixture for C8: one well-formed Intersect zone. -/
def c8Store : ZoneStore := mkStore ["z1"] (fun _ => unitSquare) (fun _ => none)

/-- Fixture for C8: a recorded event with an id but no data dictionary. -/
def c8Re : RecordedEvent := ⟨some "cam", none⟩

/-- Options wrapping c8Re. -/
def c8Opts : NotifierOptions := ⟨some c8Re, none⟩

/-- Fixture for C5: a first zone far from the detection, then the
matching zone, then a trailing zone that must never be reached. -/
def c5Store : ZoneStore :=
  mkStore ["far", "hit", "later"]
    (fun z => if z = "far" then [(2, 2), (3, 2), (3, 3), (2, 3)] else unitSquare)
    (fun _ => none)

/-- Fixture for C6: a well-formed non-matching zone followed by a zone
whose ring has only two vertices. -/
def c6Store : ZoneStore :=
  mkStore ["good", "bad"]
    (fun z => if z = "bad" then [(0, 0), (1, 1)] else unitSquare)
    (fun _ => none)

/-- Fixture for C7: a single zone whose ring has two vertices. -/
def c7Store : ZoneStore := mkStore ["z1"] (fun _ => [(0, 0), (1, 0)]) (fun _ => none)

/-- Fixture for C7: two zones, both with no stored vertices. -/
def c7bStore : ZoneStore := mkStore ["z1", "z2"] (fun _ => []) (fun _ => none)

/-- Fixture for C10: one zone whose stored type is an unrecognised
string. -/
def c10Store : ZoneStore := mkStore ["z1"] (fun _ => unitSquare) (fun _ => some "Garbage")

/-! ## Helper lemmas about the evaluation loops -/

/-- A detection list in which no entry has a bounding box is skipped
entirely, leaving the no_zones_at_all flag unchanged. -/
theorem evalDetections_no_bbox (p : ZoneStore) (did : String) (dims : Frac × Frac)
    (zones : List String) (ds : List Detection) (acc : Bool)
    (h : ds.all (fun d => decide (d.boundingBox = none)) = true) :
    evalDetections p did dims zones ds acc = Except.ok acc := by
  induction ds with
  | nil => rfl
  | cons d rest ih =>
    simp only [List.all_cons, Bool.and_eq_true, decide_eq_true_eq] at h
    obtain ⟨h1, h2⟩ := h
    simp [evalDetections, h1, ih h2]

/-! ## Claims -/

/-- C9: zone-vertex scaling from normalised to pixel space is
componentwise multiplication of each vertex by the input dimensions, that
multiplication is exact on the denoted rational values (no rounding, and
never the reverse division), and the vertex (0.5, 0.5) with dimensions
(1000, 2000) maps to the pixel point with values (500, 1000). -/
theorem scaleZone_exact :
    (∀ dims : Frac × Frac, ∀ x y : Frac,
      scaleZone dims [(x, y)] = [(x.mul dims.1, y.mul dims.2)]) ∧
    (∀ a b : Frac, (a.mul b).toRat = a.toRat * b.toRat) ∧
    scaleZone (⟨1000, 1⟩, ⟨2000, 1⟩) [(⟨1, 2⟩, ⟨1, 2⟩)] = [(⟨1000, 2⟩, ⟨2000, 2⟩)] ∧
    Frac.toRat ⟨1000, 2⟩ = 500 ∧ Frac.toRat ⟨2000, 2⟩ = 1000 := by
  refine ⟨?_, ?_, ?_, ?_, ?_⟩
  · intro dims x y
    simp [scaleZone]
  · intro a b
    simp only [Frac.toRat, Frac.mul]
    rw [div_mul_div_comm]
    push_cast
    rfl
  · decide
  · norm_num [Frac.toRat]
  · norm_num [Frac.toRat]

/-- C1: at a detection box that strictly contains a Contain-mode zone the
code forwards with the containment reason, because line 425 tests
detection_box.contains(zone_box) (object contains zone); the documented
zone-contains-object direction is false at this input, as the corners of
the detection box do not all lie in the zone polygon, so under the claim
this lone zone would not match and the evaluation would suppress. -/
theorem contains_direction_inverted :
    sendNotification noPlugin (mkMixin c1Store) (mkEvent [⟨some (-10, -10, 200, 200)⟩]) =
      Decision.send (SendReason.zoneContain [(0, 0), (100, 0), (100, 100), (0, 100)]
        ⟨-10, -10, 190, 190⟩) ∧
    zoneContainsObject [(0, 0), (100, 0), (100, 100), (0, 100)] ⟨-10, -10, 190, 190⟩ = false := by
  constructor
  · rfl
  · decide

/-- C2: sendNotification always resolves to a decision: every outcome
either forwards to the wrapped notifier or suppresses, and whenever the
try body ends in an internal Python error the generic handler resolves it
to a forwarding outcome (fail-open), never a propagated exception. -/
theorem sendNotification_fail_open (pl : Plugin) (m : MixinConfig) (o : Option NotifierOptions) :
    ((sendNotification pl m o).forwards = true ∨ sendNotification pl m o = Decision.skip) ∧
    (∀ e : PyErr, sendNotificationTry pl m o = Except.error (BodyErr.py e) →
      sendNotification pl m o = Decision.sendError e) := by
  constructor
  · cases h : sendNotification pl m o with
    | send r => left; simp [Decision.forwards]
    | sendError e => left; simp [Decision.forwards]
    | skip => right; rfl
  · intro e he
    simp [sendNotification, he]

/-- C2 witness: a configuration whose try body raises ValueError (a
two-vertex zone ring) is resolved to forwarding through the generic
handler. -/
theorem sendNotification_fail_open_witness :
    sendNotification noPlugin (mkMixin c2Store) (mkEvent [⟨some (0, 0, 5, 5)⟩]) =
      Decision.sendError PyErr.valueError :=
  (sendNotification_fail_open noPlugin (mkMixin c2Store)
      (mkEvent [⟨some (0, 0, 5, 5)⟩])).2 PyErr.valueError (by rfl)

/-- C3: once the profile and device id are resolved, a camera whose zone
list is empty makes the evaluation forward immediately with the no-zones
reason (NoZonesConfigured), whatever the detections of the event are. -/
theorem no_zones_forwards (pl : Plugin) (m : MixinConfig) (opts : NotifierOptions)
    (re : RecordedEvent) (p : ZoneStore) (did : String)
    (hpc : presetChecks pl m = Except.ok ())
    (hre : opts.recordedEvent = some re)
    (hid : deviceIdOf opts re = Except.ok did)
    (hrp : resolvedPreset pl m = some p)
    (hz : zones_of p did = []) :
    sendNotification pl m (some opts) = Decision.send SendReason.noZones := by
  simp [sendNotification, sendNotificationTry, zonesPhase, hpc, hre, hid, hrp, hz]

/-- C3 witness: an empty zone list forwards with the no-zones reason even
though the event carries a detection. -/
theorem no_zones_forwards_witness :
    sendNotification noPlugin (mkMixin c3Store) (mkEvent [⟨some (0, 0, 5, 5)⟩]) =
      Decision.send SendReason.noZones :=
  no_zones_forwards noPlugin (mkMixin c3Store) (mkOpts [⟨some (0, 0, 5, 5)⟩])
    (mkRe [⟨some (0, 0, 5, 5)⟩]) c3Store "cam" (by rfl) (by rfl) (by rfl) (by rfl) (by rfl)

/-- C4: with use_custom unset, a missing or falsy selected preset id
forwards with the no-preset-selected reason before the registry is even
consulted; a selected id whose registry lookup finds nothing forwards
with the preset-not-found reason; and with use_custom set both checks are
skipped and the mixin's own custom profile is used unconditionally. -/
theorem preset_resolution_checks (pl : Plugin) (m : MixinConfig) (o : Option NotifierOptions) :
    (m.use_custom = false → truthyS m.selected_preset = false →
      sendNotification pl m o = Decision.send SendReason.noPresetSelected) ∧
    (m.use_custom = false → truthyS m.selected_preset = true →
      get_device_from_scrypted pl m.selected_preset = false →
      sendNotification pl m o = Decision.send SendReason.presetNotFound) ∧
    (m.use_custom = true →
      presetChecks pl m = Except.ok () ∧ resolvedPreset pl m = some m.customStore) := by
  refine ⟨?_, ?_, ?_⟩
  · intro hu hs
    simp [sendNotification, sendNotificationTry, presetChecks, hu, hs]
  · intro hu hs hd
    simp [sendNotification, sendNotificationTry, presetChecks, hu, hs, hd]
  · intro hu
    exact ⟨by simp [presetChecks, hu], by simp [resolvedPreset, hu]⟩

/-- C4 witness: instantiations of the three branches: no selection, a
selection the registry does not know, and a custom-zones mixin. -/
theorem preset_resolution_checks_witness :
    sendNotification noPlugin ⟨false, none, c3Store⟩ none =
      Decision.send SendReason.noPresetSelected ∧
    sendNotification noPlugin ⟨false, some "gone", c3Store⟩ none =
      Decision.send SendReason.presetNotFound ∧
    resolvedPreset noPlugin (mkMixin c3Store) = some c3Store := by
  refine ⟨?_, ?_, ?_⟩
  · exact (preset_resolution_checks noPlugin ⟨false, none, c3Store⟩ none).1 (by rfl) (by rfl)
  · exact (preset_resolution_checks noPlugin ⟨false, some "gone", c3Store⟩ none).2.1
      (by rfl) (by rfl) (by rfl)
  · exact ((preset_resolution_checks noPlugin (mkMixin c3Store) none).2.2 (by rfl)).2

/-- C8: with a resolved profile and a nonempty zone list, a malformed
payload is folded into forwarding: a missing detections list (or missing
data dictionary) forwards with the no-detections reason, missing frame
dimensions forward with the no-input-dimensions reason, and a detections
list in which no entry carries a bounding box leaves nothing to evaluate
and forwards; none of these suppress or escape as a failure. -/
theorem malformed_event_forwards (pl : Plugin) (m : MixinConfig) (opts : NotifierOptions)
    (re : RecordedEvent) (p : ZoneStore) (did : String)
    (hpc : presetChecks pl m = Except.ok ())
    (hre : opts.recordedEvent = some re)
    (hid : deviceIdOf opts re = Except.ok did)
    (hrp : resolvedPreset pl m = some p)
    (hz : zones_of p did ≠ []) :
    (eventDetections re = none →
      sendNotification pl m (some opts) = Decision.send SendReason.noDetections) ∧
    (∀ dets, eventDetections re = some dets → eventDims re = none →
      sendNotification pl m (some opts) = Decision.send SendReason.noInputDimensions) ∧
    (∀ dets dims, eventDetections re = some dets → eventDims re = some dims →
      dets.all (fun d => decide (d.boundingBox = none)) = true →
      sendNotification pl m (some opts) = Decision.send SendReason.nothingToEvaluate) := by
  refine ⟨?_, ?_, ?_⟩
  · intro hd
    simp [sendNotification, sendNotificationTry, zonesPhase, hpc, hre, hid, hrp, hz, hd]
  · intro dets hd hdim
    simp [sendNotification, sendNotificationTry, zonesPhase, hpc, hre, hid, hrp, hz, hd, hdim]
  · intro dets dims hd hdim hbb
    simp [sendNotification, sendNotificationTry, zonesPhase, hpc, hre, hid, hrp, hz, hd, hdim,
      evalDetections_no_bbox p did dims (zones_of p did) dets true hbb]

/-- C8 witness: an event with no data dictionary forwards with the
no-detections reason, and an event whose only detection lacks a bounding
box forwards with the nothing-to-evaluate reason. -/
theorem malformed_event_forwards_witness :
    sendNotification noPlugin (mkMixin c8Store) (some c8Opts) =
      Decision.send SendReason.noDetections ∧
    sendNotification noPlugin (mkMixin c8Store) (mkEvent [⟨none⟩]) =
      Decision.send SendReason.nothingToEvaluate := by
  constructor
  · exact (malformed_event_forwards noPlugin (mkMixin c8Store) c8Opts c8Re c8Store "cam"
      (by rfl) (by rfl) (by rfl) (by rfl) (by decide)).1 (by rfl)
  · exact (malformed_event_forwards noPlugin (mkMixin c8Store) (mkOpts [⟨none⟩])
      (mkRe [⟨none⟩]) c8Store "cam" (by rfl) (by rfl) (by rfl) (by rfl) (by decide)).2.2
      [⟨none⟩] (100, 100) (by rfl) (by rfl) (by rfl)

/-- C10: an absent stored zone type reads as the default Intersect, and
the evaluation branches on equality of that string with Intersect: a zone
whose type reads Intersect runs the intersection predicate, while any
other stored value, not just Contain, runs the containment predicate
instead of being rejected; both stated for zones whose scaled ring
closes to at least 4 coordinates, so that the Polygon constructor
succeeds and line 421 is reached. -/
theorem zone_type_branching :
    (∀ st : ZoneStore, ∀ c z : String,
      st.zoneTypeItem c z = none → zone_type_of st c z = "Intersect") ∧
    (∀ p did dims box z acc, zone_details_of p did z ≠ [] →
      4 ≤ ringLength (scaleZone dims (zone_details_of p did z)) →
      zone_type_of p did z ≠ "Intersect" →
      evalZones p did dims box [z] acc =
        (if boxContainsPoly box (scaleZone dims (zone_details_of p did z)) then
          Except.error (BodyErr.shouldSend
            (SendReason.zoneContain (scaleZone dims (zone_details_of p did z)) box))
        else Except.ok false)) ∧
    (∀ p did dims box z acc, zone_details_of p did z ≠ [] →
      4 ≤ ringLength (scaleZone dims (zone_details_of p did z)) →
      zone_type_of p did z = "Intersect" →
      evalZones p did dims box [z] acc =
        (if boxIntersectsPoly box (scaleZone dims (zone_details_of p did z)) then
          Except.error (BodyErr.shouldSend
            (SendReason.zoneIntersect (scaleZone dims (zone_details_of p did z)) box))
        else Except.ok false)) := by
  refine ⟨?_, ?_, ?_⟩
  · intro st c z h
    simp [zone_type_of, pyOrStr, h]
  · intro p did dims box z acc hne hlen hty
    have hs : ¬ ringLength (scaleZone dims (zone_details_of p did z)) < 4 := by omega
    simp only [evalZones, if_neg hne, if_neg hs, if_neg hty]
  · intro p did dims box z acc hne hlen hty
    have hs : ¬ ringLength (scaleZone dims (zone_details_of p did z)) < 4 := by omega
    simp only [evalZones, if_neg hne, if_neg hs, if_pos hty]

/-- C10 witness: an absent stored type reads as Intersect; the zone with
stored type Garbage runs the containment branch (and fires it against a
box containing the zone); a default-typed zone runs the intersection
branch. -/
theorem zone_type_branching_witness :
    zone_type_of c8Store "cam" "z1" = "Intersect" ∧
    evalZones c10Store "cam" (100, 100) ⟨0, 0, 200, 200⟩ ["z1"] true =
      Except.error (BodyErr.shouldSend
        (SendReason.zoneContain [(0, 0), (100, 0), (100, 100), (0, 100)] ⟨0, 0, 200, 200⟩)) ∧
    evalZones c8Store "cam" (100, 100) ⟨0, 0, 5, 5⟩ ["z1"] true =
      Except.error (BodyErr.shouldSend
        (SendReason.zoneIntersect [(0, 0), (100, 0), (100, 100), (0, 100)] ⟨0, 0, 5, 5⟩)) := by
  refine ⟨?_, ?_, ?_⟩
  · exact zone_type_branching.1 c8Store "cam" "z1" (by rfl)
  · exact zone_type_branching.2.1 c10Store "cam" (100, 100) ⟨0, 0, 200, 200⟩ "z1" true
      (by decide) (by decide) (by decide)
  · exact zone_type_branching.2.2 c8Store "cam" (100, 100) ⟨0, 0, 5, 5⟩ "z1" true
      (by decide) (by decide) (by rfl)

/-! ## Loop lemmas for the match and no-match claims -/

/-- One step of the zone loop over a zone that neither fires nor raises:
the loop moves on, anding the no_zones_at_all flag with that zone's
inactivity. -/
theorem evalZones_noFire_step (p : ZoneStore) (did : String) (dims : Frac × Frac) (box : BoxG)
    (z : String) (rest : List String) (acc : Bool)
    (hz : zoneNoFireB p did dims box z = true) :
    evalZones p did dims box (z :: rest) acc =
      evalZones p did dims box rest (acc && decide (zone_details_of p did z = [])) := by
  by_cases hd : zone_details_of p did z = []
  · simp [evalZones, hd]
  · simp only [zoneNoFireB, Bool.or_eq_true, Bool.and_eq_true, decide_eq_true_eq] at hz
    rcases hz with hz | ⟨hlen, hpred⟩
    · exact absurd hz hd
    · have hs : ¬ ringLength (scaleZone dims (zone_details_of p did z)) < 4 := by omega
      by_cases hty : zone_type_of p did z = "Intersect"
      · rw [if_pos hty] at hpred
        simp only [Bool.not_eq_true'] at hpred
        simp [evalZones, hd, hs, hty, hpred]
      · rw [if_neg hty] at hpred
        simp only [Bool.not_eq_true'] at hpred
        simp [evalZones, hd, hs, hty, hpred]

/-- A full pass over zones none of which fires or raises returns normally
with the flag anded with the inactivity of the whole list. -/
theorem evalZones_all_noFire (p : ZoneStore) (did : String) (dims : Frac × Frac) (box : BoxG)
    (zs : List String) (acc : Bool)
    (h : zs.all (zoneNoFireB p did dims box) = true) :
    evalZones p did dims box zs acc = Except.ok (acc && zonesInactive p did zs) := by
  induction zs generalizing acc with
  | nil => simp [evalZones, zonesInactive]
  | cons z rest ih =>
    simp only [List.all_cons, Bool.and_eq_true] at h
    obtain ⟨hz, hrest⟩ := h
    rw [evalZones_noFire_step p did dims box z rest acc hz, ih _ hrest]
    simp [zonesInactive, List.all_cons, Bool.and_assoc]

/-- The zone loop stops at the first firing Intersect zone, whatever
zones follow it and whatever the flag was. -/
theorem evalZones_fires_intersect (p : ZoneStore) (did : String) (dims : Frac × Frac)
    (box : BoxG) (zs1 zs2 : List String) (z : String) (acc : Bool)
    (h1 : zs1.all (zoneNoFireB p did dims box) = true)
    (hne : zone_details_of p did z ≠ [])
    (hlen : 4 ≤ ringLength (scaleZone dims (zone_details_of p did z)))
    (hty : zone_type_of p did z = "Intersect")
    (hint : boxIntersectsPoly box (scaleZone dims (zone_details_of p did z)) = true) :
    evalZones p did dims box (zs1 ++ z :: zs2) acc =
      Except.error (BodyErr.shouldSend
        (SendReason.zoneIntersect (scaleZone dims (zone_details_of p did z)) box)) := by
  induction zs1 generalizing acc with
  | nil =>
    have hs : ¬ ringLength (scaleZone dims (zone_details_of p did z)) < 4 := by omega
    simp [evalZones, hne, hs, hty, hint]
  | cons w rest ih =>
    simp only [List.all_cons, Bool.and_eq_true] at h1
    obtain ⟨hw, hrest⟩ := h1
    rw [List.cons_append, evalZones_noFire_step p did dims box w (rest ++ z :: zs2) acc hw]
    exact ih _ hrest

/-- A full pass over detections none of which fires or raises returns
normally; the final flag records whether some detection with a bounding
box met some zone with stored vertices. -/
theorem evalDetections_all_noFire (p : ZoneStore) (did : String) (dims : Frac × Frac)
    (zones : List String) (ds : List Detection) (acc : Bool)
    (h : ds.all (detectionNoFireB p did dims zones) = true) :
    evalDetections p did dims zones ds acc =
      Except.ok (acc && (ds.all (fun d => decide (d.boundingBox = none)) ||
        zonesInactive p did zones)) := by
  induction ds generalizing acc with
  | nil => simp [evalDetections]
  | cons d rest ih =>
    simp only [List.all_cons, Bool.and_eq_true] at h
    obtain ⟨hd, hrest⟩ := h
    cases hdb : d.boundingBox with
    | none =>
      rw [show evalDetections p did dims zones (d :: rest) acc =
            evalDetections p did dims zones rest acc by simp [evalDetections, hdb]]
      rw [ih _ hrest]
      simp [List.all_cons, hdb]
    | some bb =>
      have hzall : zones.all (zoneNoFireB p did dims (detBox bb)) = true := by
        simpa [detectionNoFireB, hdb] using hd
      rw [show evalDetections p did dims zones (d :: rest) acc =
            evalDetections p did dims zones rest (acc && zonesInactive p did zones) by
          simp [evalDetections, hdb,
            evalZones_all_noFire p did dims (detBox bb) zones acc hzall]]
      rw [ih _ hrest]
      have hzz : decide (d.boundingBox = none) = false := by simp [hdb]
      have habs : ∀ a z r : Bool, ((a && z) && (r || z)) = (a && z) := by
        intro a z r
        cases a <;> cases z <;> cases r <;> rfl
      simp only [List.all_cons, hzz, Bool.false_and, Bool.false_or, habs]

/-- The detection loop stops with the error of the first detection whose
zone pass errors, whatever detections follow and whatever the flag was. -/
theorem evalDetections_fires (p : ZoneStore) (did : String) (dims : Frac × Frac)
    (zones : List String) (ds1 ds2 : List Detection) (det : Detection)
    (bb : Frac × Frac × Frac × Frac) (E : BodyErr) (acc : Bool)
    (h1 : ds1.all (detectionNoFireB p did dims zones) = true)
    (hbb : det.boundingBox = some bb)
    (hz : ∀ a : Bool, evalZones p did dims (detBox bb) zones a = Except.error E) :
    evalDetections p did dims zones (ds1 ++ det :: ds2) acc = Except.error E := by
  induction ds1 generalizing acc with
  | nil =>
    simp [evalDetections, hbb, hz acc]
  | cons d rest ih =>
    simp only [List.all_cons, Bool.and_eq_true] at h1
    obtain ⟨hd, hrest⟩ := h1
    cases hdb : d.boundingBox with
    | none =>
      rw [List.cons_append]
      rw [show evalDetections p did dims zones (d :: (rest ++ det :: ds2)) acc =
            evalDetections p did dims zones (rest ++ det :: ds2) acc by
          simp [evalDetections, hdb]]
      exact ih _ hrest
    | some bb2 =>
      have hzall : zones.all (zoneNoFireB p did dims (detBox bb2)) = true := by
        simpa [detectionNoFireB, hdb] using hd
      rw [List.cons_append]
      rw [show evalDetections p did dims zones (d :: (rest ++ det :: ds2)) acc =
            evalDetections p did dims zones (rest ++ det :: ds2)
              (acc && zonesInactive p did zones) by
          simp [evalDetections, hdb,
            evalZones_all_noFire p did dims (detBox bb2) zones acc hzall]]
      exact ih _ hrest

/-- When every zone of the list has empty details, no detection can fire
or raise. -/
theorem detectionNoFireB_of_inactive (p : ZoneStore) (did : String) (dims : Frac × Frac)
    (zones : List String) (d : Detection)
    (h : zonesInactive p did zones = true) :
    detectionNoFireB p did dims zones d = true := by
  cases hdb : d.boundingBox with
  | none => simp [detectionNoFireB, hdb]
  | some bb =>
    simp only [detectionNoFireB, hdb, List.all_eq_true]
    simp only [zonesInactive, List.all_eq_true, decide_eq_true_eq] at h
    intro z hzmem
    simp [zoneNoFireB, h z hzmem]

/-- C5: evaluation iterates the detections carrying a bounding box and,
for each, the camera's zones in order; at the first pair whose zone
constructs (scaled ring closing to at least 4 coordinates), reads as
Intersect, and whose scaled polygon meets the detection box, it stops
with a forward decision carrying the zoneIntersect reason and exactly
that (zone polygon, detection polygon) evidence pair, whatever detections
or zones come later in the lists; the earlier zones and detections must
neither match nor abort the loop with a constructor error. -/
theorem first_intersect_match_forwards (pl : Plugin) (m : MixinConfig) (opts : NotifierOptions)
    (re : RecordedEvent) (p : ZoneStore) (did : String) (dims : Frac × Frac)
    (ds1 ds2 : List Detection) (det : Detection) (bb : Frac × Frac × Frac × Frac)
    (zs1 zs2 : List String) (z : String)
    (hpc : presetChecks pl m = Except.ok ())
    (hre : opts.recordedEvent = some re)
    (hid : deviceIdOf opts re = Except.ok did)
    (hrp : resolvedPreset pl m = some p)
    (hzs : zones_of p did = zs1 ++ z :: zs2)
    (hdets : eventDetections re = some (ds1 ++ det :: ds2))
    (hdims : eventDims re = some dims)
    (h1 : ds1.all (detectionNoFireB p did dims (zs1 ++ z :: zs2)) = true)
    (hbb : det.boundingBox = some bb)
    (h2 : zs1.all (zoneNoFireB p did dims (detBox bb)) = true)
    (hne : zone_details_of p did z ≠ [])
    (hlen : 4 ≤ ringLength (scaleZone dims (zone_details_of p did z)))
    (hty : zone_type_of p did z = "Intersect")
    (hint : boxIntersectsPoly (detBox bb) (scaleZone dims (zone_details_of p did z)) = true) :
    sendNotification pl m (some opts) =
      Decision.send (SendReason.zoneIntersect
        (scaleZone dims (zone_details_of p did z)) (detBox bb)) := by
  have hz : ∀ a : Bool, evalZones p did dims (detBox bb) (zs1 ++ z :: zs2) a =
      Except.error (BodyErr.shouldSend
        (SendReason.zoneIntersect (scaleZone dims (zone_details_of p did z)) (detBox bb))) :=
    fun a => evalZones_fires_intersect p did dims (detBox bb) zs1 zs2 z a h2 hne hlen hty hint
  have hd : evalDetections p did dims (zs1 ++ z :: zs2) (ds1 ++ det :: ds2) true =
      Except.error (BodyErr.shouldSend
        (SendReason.zoneIntersect (scaleZone dims (zone_details_of p did z)) (detBox bb))) :=
    evalDetections_fires p did dims (zs1 ++ z :: zs2) ds1 ds2 det bb _ true h1 hbb hz
  simp [sendNotification, sendNotificationTry, zonesPhase, hpc, hre, hid, hrp, hzs, hdets,
    hdims, hd]

/-- C5 witness: with zones far, hit, later in that order and detections
(no box, matching box, another box), the decision is the forward of the
hit zone against the second detection, with that evidence pair. -/
theorem first_intersect_match_forwards_witness :
    sendNotification noPlugin (mkMixin c5Store)
        (mkEvent [⟨none⟩, ⟨some (10, 10, 5, 5)⟩, ⟨some (0, 0, 1, 1)⟩]) =
      Decision.send (SendReason.zoneIntersect [(0, 0), (100, 0), (100, 100), (0, 100)]
        ⟨10, 10, 15, 15⟩) :=
  first_intersect_match_forwards noPlugin (mkMixin c5Store)
    (mkOpts [⟨none⟩, ⟨some (10, 10, 5, 5)⟩, ⟨some (0, 0, 1, 1)⟩])
    (mkRe [⟨none⟩, ⟨some (10, 10, 5, 5)⟩, ⟨some (0, 0, 1, 1)⟩]) c5Store "cam" (100, 100)
    [⟨none⟩] [⟨some (0, 0, 1, 1)⟩] ⟨some (10, 10, 5, 5)⟩ (10, 10, 5, 5)
    ["far"] ["later"] "hit"
    (by rfl) (by rfl) (by rfl) (by rfl) (by rfl) (by rfl) (by rfl)
    (by decide) (by rfl) (by decide) (by decide) (by decide) (by rfl) (by decide)

/-- C6 counterexample: the good zone has usable geometry, is evaluated
against the detection, and no zone matches, yet the decision is not
Suppress: the trailing two-vertex zone raises ValueError, which the
generic handler resolves by forwarding. -/
theorem no_zone_matched_cex :
    sendNotification noPlugin (mkMixin c6Store) (mkEvent [⟨some (300, 300, 5, 5)⟩]) =
      Decision.sendError PyErr.valueError ∧
    Decision.sendError PyErr.valueError ≠ Decision.skip := by
  constructor
  · rfl
  · decide

/-- C6 amended: when the loop runs to completion, that is every examined
zone either has no stored vertices or has a scaled ring closing to at
least 4 coordinates (so the Polygon constructor succeeds) and does not
match, with at least one detection carrying a bounding box and at least
one zone with stored vertices, the decision is skip: the notification is
suppressed and the wrapped notifier is not invoked. -/
theorem no_zone_matched_suppress (pl : Plugin) (m : MixinConfig) (opts : NotifierOptions)
    (re : RecordedEvent) (p : ZoneStore) (did : String) (dims : Frac × Frac)
    (dets : List Detection)
    (hpc : presetChecks pl m = Except.ok ())
    (hre : opts.recordedEvent = some re)
    (hid : deviceIdOf opts re = Except.ok did)
    (hrp : resolvedPreset pl m = some p)
    (hdets : eventDetections re = some dets)
    (hdims : eventDims re = some dims)
    (hnf : dets.all (detectionNoFireB p did dims (zones_of p did)) = true)
    (hbb : dets.all (fun d => decide (d.boundingBox = none)) = false)
    (hzi : zonesInactive p did (zones_of p did) = false) :
    sendNotification pl m (some opts) = Decision.skip := by
  have hzne : zones_of p did ≠ [] := by
    intro h
    rw [h] at hzi
    simp [zonesInactive] at hzi
  have hev := evalDetections_all_noFire p did dims (zones_of p did) dets true hnf
  rw [hbb, hzi] at hev
  simp only [Bool.or_false, Bool.and_false] at hev
  simp [sendNotification, sendNotificationTry, zonesPhase, hpc, hre, hid, hrp, hzne, hdets,
    hdims, hev]

/-- C6 witness for the amended claim: one well-formed Intersect zone
disjoint from the detection box suppresses the notification. -/
theorem no_zone_matched_suppress_witness :
    sendNotification noPlugin (mkMixin c8Store) (mkEvent [⟨some (300, 300, 5, 5)⟩]) =
      Decision.skip :=
  no_zone_matched_suppress noPlugin (mkMixin c8Store) (mkOpts [⟨some (300, 300, 5, 5)⟩])
    (mkRe [⟨some (300, 300, 5, 5)⟩]) c8Store "cam" (100, 100) [⟨some (300, 300, 5, 5)⟩]
    (by rfl) (by rfl) (by rfl) (by rfl) (by rfl) (by rfl)
    (by decide) (by decide) (by decide)

/-- C7 counterexample: a single zone with a two-vertex ring is not
skipped: the Polygon constructor raises, the generic handler forwards
with an internal error, and the decision is not the nothing-to-evaluate
forward the claim requires for an all-inactive configuration. -/
theorem short_zone_not_skipped :
    sendNotification noPlugin (mkMixin c7Store) (mkEvent [⟨some (0, 0, 5, 5)⟩]) =
      Decision.sendError PyErr.valueError ∧
    Decision.sendError PyErr.valueError ≠ Decision.send SendReason.nothingToEvaluate := by
  constructor
  · rfl
  · decide

/-- The ring closure adds at most one coordinate. -/
theorem ringLength_le (pts : List Pt) : ringLength pts ≤ pts.length + 1 := by
  cases pts with
  | nil => simp [ringLength]
  | cons p ps =>
    simp only [ringLength]
    split
    · omega
    · omega

/-- C7 amended: a zone with no stored vertices is skipped without error;
a zone with a nonempty ring of fewer than 3 vertices aborts the loop with
ValueError (resolved fail-open to forwarding by the generic handler, as
the counterexample shows); and when every configured zone has no stored
vertices the evaluation forwards with the nothing-to-evaluate reason. -/
theorem inactive_zone_behavior :
    (∀ p did dims box z rest acc, zone_details_of p did z = [] →
      evalZones p did dims box (z :: rest) acc = evalZones p did dims box rest acc) ∧
    (∀ p did dims box z rest acc, zone_details_of p did z ≠ [] →
      (zone_details_of p did z).length < 3 →
      evalZones p did dims box (z :: rest) acc = Except.error (BodyErr.py PyErr.valueError)) ∧
    (∀ pl m opts re p did,
      presetChecks pl m = Except.ok () → opts.recordedEvent = some re →
      deviceIdOf opts re = Except.ok did → resolvedPreset pl m = some p →
      zones_of p did ≠ [] → zonesInactive p did (zones_of p did) = true →
      ∀ dets dims, eventDetections re = some dets → eventDims re = some dims →
      sendNotification pl m (some opts) = Decision.send SendReason.nothingToEvaluate) := by
  refine ⟨?_, ?_, ?_⟩
  · intro p did dims box z rest acc h
    simp [evalZones, h]
  · intro p did dims box z rest acc hne hlt
    have hlen : (scaleZone dims (zone_details_of p did z)).length < 3 := by
      simp only [scaleZone, List.length_map]
      omega
    have hs : ringLength (scaleZone dims (zone_details_of p did z)) < 4 := by
      have := ringLength_le (scaleZone dims (zone_details_of p did z))
      omega
    simp only [evalZones, if_neg hne, if_pos hs]
  · intro pl m opts re p did hpc hre hid hrp hzne hzi dets dims hdets hdims
    have hnf : dets.all (detectionNoFireB p did dims (zones_of p did)) = true := by
      rw [List.all_eq_true]
      intro d _
      exact detectionNoFireB_of_inactive p did dims (zones_of p did) d hzi
    have hev := evalDetections_all_noFire p did dims (zones_of p did) dets true hnf
    rw [hzi] at hev
    simp only [Bool.or_true, Bool.and_true, Bool.true_and] at hev
    simp [sendNotification, sendNotificationTry, zonesPhase, hpc, hre, hid, hrp, hzne, hdets,
      hdims, hev]

/-- C7 witness for the amended claim: skipping an empty-details zone is a
plain step to the rest of the list; a two-vertex zone errors; a
configuration whose zones all have no vertices forwards with the
nothing-to-evaluate reason. -/
theorem inactive_zone_behavior_witness :
    evalZones c7bStore "cam" (100, 100) ⟨0, 0, 5, 5⟩ ["z1"] true =
      evalZones c7bStore "cam" (100, 100) ⟨0, 0, 5, 5⟩ [] true ∧
    evalZones c7Store "cam" (100, 100) ⟨0, 0, 5, 5⟩ ["z1"] true =
      Except.error (BodyErr.py PyErr.valueError) ∧
    sendNotification noPlugin (mkMixin c7bStore) (mkEvent [⟨some (0, 0, 5, 5)⟩]) =
      Decision.send SendReason.nothingToEvaluate := by
  refine ⟨?_, ?_, ?_⟩
  · exact inactive_zone_behavior.1 c7bStore "cam" (100, 100) ⟨0, 0, 5, 5⟩ "z1" [] true (by rfl)
  · exact inactive_zone_behavior.2.1 c7Store "cam" (100, 100) ⟨0, 0, 5, 5⟩ "z1" [] true
      (by decide) (by decide)
  · exact inactive_zone_behavior.2.2 noPlugin (mkMixin c7bStore) (mkOpts [⟨some (0, 0, 5, 5)⟩])
      (mkRe [⟨some (0, 0, 5, 5)⟩]) c7bStore "cam" (by rfl) (by rfl) (by rfl) (by rfl)
      (by decide) (by decide) [⟨some (0, 0, 5, 5)⟩] (100, 100) (by rfl) (by rfl)

end ZoneFilter
